import Mathlib

/-!
# node-build-talk — embedding and verification

Shallow embedding of the repository `dwilson6/node-build-talk`:
a single Express application (`src/S3-optimize-npm-install/index.js`)

  (imports express) const app = express();
  app.get('/', (req, res) => \x7b res.send('Good Afternoon!'); \x7d);
  app.listen(3000);
  console.log('Server is listening on http://localhost:3000');

together with the Dockerfile shipped alongside it.  The framework
behaviour the program relies on (Express routing, `res.send` on a string
body, the default not-found handler, the HEAD-falls-back-to-GET rule, and
Node.js asynchronous `listen` semantics) is embedded from the documented
behaviour of Express 4 / Node.js, since the program delegates to it.
-/

set_option linter.unusedVariables false

namespace NodeBuildTalk

/-! ## HTTP data model -/

/-- HTTP request methods relevant to routing. -/
inductive Method
  | GET
  | HEAD
  | POST
  | PUT
  | DELETE
  | PATCH
  deriving DecidableEq, Repr

/-- An inbound HTTP request: method, path, and the parts the handler never
inspects (headers, query string, body). -/
structure Request where
  method : Method
  path : String
  headers : List (String × String)
  queryString : String
  body : String
  deriving DecidableEq, Repr

/-- A finished HTTP response. -/
structure Response where
  status : Nat
  headers : List (String × String)
  body : String
  deriving DecidableEq, Repr

/-- The mutable response object Express hands to a handler, before it is
sent: status defaults to 200, no headers set, empty body. -/
structure ResBuilder where
  statusCode : Nat := 200
  headers : List (String × String) := []
  body : String := ""
  deriving DecidableEq, Repr

/-- Set a response header only if it is not already present. -/
def setHeaderIfAbsent (rb : ResBuilder) (k v : String) : ResBuilder :=
  if rb.headers.any (fun h => h.1 == k) then rb
  else { rb with headers := rb.headers ++ [(k, v)] }

/-- Express `res.send` on a string argument: sets the Content-Type header
to `text/html; charset=utf-8` when none was set, and stores the string as
the body.  (Express 4 documents that `res.send` with a String parameter
sets the Content-Type to text/html.) -/
def send (payload : String) (rb : ResBuilder) : ResBuilder :=
  { setHeaderIfAbsent rb "Content-Type" "text/html; charset=utf-8" with
      body := payload }

/-- The single route handler of index.js: `(req, res) => res.send('Good Afternoon!')`. -/
def rootHandler (req : Request) (res : ResBuilder) : ResBuilder :=
  send "Good Afternoon!" res

/-! ## Express routing -/

/-- Printable method name, used by the default not-found body. -/
def methodName : Method → String
  | .GET => "GET"
  | .HEAD => "HEAD"
  | .POST => "POST"
  | .PUT => "PUT"
  | .DELETE => "DELETE"
  | .PATCH => "PATCH"

/-- A registered route: the (method, path) pair and the handler. -/
structure Route where
  method : Method
  path : String
  handler : Request → ResBuilder → ResBuilder

/-- Express route matching: the path must be equal, and the method must be
equal, except that a HEAD request also matches a GET route (Express serves
HEAD through GET handlers when no dedicated HEAD route exists). -/
def routeMatches (m : Method) (p : String) (r : Route) : Bool :=
  r.path == p && (r.method == m || (m == Method.HEAD && r.method == Method.GET))

/-- Turn the handler result into the wire response.  For a HEAD request
the body is omitted from the wire (headers and status are kept). -/
def finalize (m : Method) (rb : ResBuilder) : Response :=
  { status := rb.statusCode
    headers := rb.headers
    body := if m == Method.HEAD then "" else rb.body }

/-- The Express default not-found response, produced when no registered
route matches: status 404 with the `Cannot METHOD /path` body. -/
def notFoundResponse (req : Request) : Response :=
  { status := 404
    headers := [("Content-Type", "text/html; charset=utf-8")]
    body := "Cannot " ++ methodName req.method ++ " " ++ req.path }

/-- Express request dispatch: the first matching registered route handles
the request (starting from the fresh response object); otherwise the
framework default not-found handler answers. -/
def dispatch (routes : List Route) (req : Request) : Response :=
  match routes.find? (routeMatches req.method req.path) with
  | some r => finalize req.method (r.handler req {})
  | none => notFoundResponse req

/-! ## The top-level script and its Node.js semantics

The statements available to a Node/Express top-level script, as far as
this program exercises them, plus the explicit error-handling constructs
(try/catch around listen, `server.on('error', ...)`, `process.on(...)`)
that the program could have used but does not. -/

/-- One top-level statement of the script. -/
inductive Stmt
  | appGet (path : String) (handler : Request → ResBuilder → ResBuilder)
  | listen (port : Nat)
  | consoleLog (msg : String)
  | registerErrorHandler

/-- Observable events of a process run. -/
inductive Event
  | listenCall (port : Nat)
  | stdout (line : String)
  | bound (port : Nat)
  | errorThrown (msg : String)
  | exited
  deriving DecidableEq, Repr

/-- State accumulated by the synchronous top-to-bottom execution of the
script: registered routes, emitted events, ports whose bind is still
pending (Node binds asynchronously), and how many explicit error handlers
were installed. -/
structure SyncState where
  routes : List Route := []
  events : List Event := []
  pending : List Nat := []
  errorHandlers : Nat := 0

/-- Execute one statement synchronously.  `listen` only initiates the
bind: it records the listen call and leaves the bind pending for the
event loop; `console.log` writes a line immediately. -/
def execStmt (s : SyncState) : Stmt → SyncState
  | .appGet p h =>
      { s with routes := s.routes ++ [⟨Method.GET, p, h⟩] }
  | .listen port =>
      { s with events := s.events ++ [Event.listenCall port]
               pending := s.pending ++ [port] }
  | .consoleLog m =>
      { s with events := s.events ++ [Event.stdout m] }
  | .registerErrorHandler =>
      { s with errorHandlers := s.errorHandlers + 1 }

/-- Run the whole script synchronously, top to bottom. -/
def syncRun (prog : List Stmt) : SyncState :=
  prog.foldl execStmt {}

/-- The string logged by index.js line 8. -/
def startupMsg : String := "Server is listening on http://localhost:3000"

/-- The top-level script of index.js, as a function of the process
environment and command-line arguments.  The source reads neither
(`process.env` and `process.argv` are never mentioned), so the script is
the same constant list for every `env` and `argv`; line 7 hard-codes the
port 3000 and line 8 logs immediately, with no listen callback. -/
def program (env : List (String × String)) (argv : List String) : List Stmt :=
  [Stmt.appGet "/" rootHandler,
   Stmt.listen 3000,
   Stmt.consoleLog startupMsg]

/-- Outcome of the asynchronous bind attempt delivered by the event loop. -/
inductive BindOutcome
  | ok
  | addrInUse
  deriving DecidableEq, Repr

/-- Event-loop resolution of one pending bind.  On success the listener
becomes bound.  On failure Node emits an error; with no explicit error
handler installed the error is thrown uncaught and the process exits. -/
def resolveBind (handlers : Nat) (outcome : BindOutcome) (port : Nat) : List Event :=
  match outcome with
  | .ok => [Event.bound port]
  | .addrInUse =>
      if handlers == 0 then [Event.errorThrown "EADDRINUSE", Event.exited]
      else [Event.errorThrown "EADDRINUSE"]

/-- The full observable event trace of one process run: the synchronous
phase first, then the event loop resolves every pending bind. -/
def run (env : List (String × String)) (argv : List String)
    (outcome : BindOutcome) : List Event :=
  let s := syncRun (program env argv)
  s.events ++ s.pending.flatMap (resolveBind s.errorHandlers outcome)

/-- The routes the program has registered when it starts listening. -/
def app : List Route := (syncRun (program [] [])).routes

/-! ## Trace observations -/

/-- Lines written to standard output, in order. -/
def stdoutLines (evs : List Event) : List String :=
  evs.filterMap fun e => match e with | Event.stdout m => some m | _ => none

/-- Ports passed to listen calls, in order. -/
def listenCalls (evs : List Event) : List Nat :=
  evs.filterMap fun e => match e with | Event.listenCall p => some p | _ => none

/-- Ports on which a listener actually became bound, in order. -/
def boundPorts (evs : List Event) : List Nat :=
  evs.filterMap fun e => match e with | Event.bound p => some p | _ => none

/-- True when some stdout line occurs in the trace before any listener has
become bound. -/
def logPrecedesBind : List Event → Bool
  | [] => false
  | Event.bound _ :: _ => false
  | Event.stdout _ :: _ => true
  | _ :: evs => logPrecedesBind evs

/-- The bind-then-log ordering as the spec states it: no stdout line is
written before a listener is bound. -/
def logGatedOnBind (evs : List Event) : Prop := logPrecedesBind evs = false

/-! ## Response observations -/

/-- The Content-Type header of a response, if set. -/
def contentTypeOf (r : Response) : Option String :=
  (r.headers.find? (fun h => h.1 == "Content-Type")).map (fun h => h.2)

/-- Whether the response declares a plain-text content type
(`text/plain`, possibly with parameters). -/
def respIsPlainText (r : Response) : Bool :=
  match contentTypeOf r with
  | some ct => (ct.take 10) == "text/plain"
  | none => false

/-! ## State-explicit view of the handler

The module-level mutable state of index.js.  The source declares a single
`const` binding (`app`) and no mutable variable, no collection, and no
closure-captured cell: the state visible to the handler is empty by
construction. -/

structure AppState where
  deriving DecidableEq, Repr

/-- The route handler with the module state threaded explicitly: the body
only calls `res.send`, so the state passes through unchanged. -/
def rootHandlerSt (req : Request) (res : ResBuilder) (s : AppState) :
    ResBuilder × AppState :=
  (send "Good Afternoon!" res, s)

/-- A registered route, state-explicit form. -/
structure RouteSt where
  method : Method
  path : String
  handler : Request → ResBuilder → AppState → ResBuilder × AppState

/-- Route matching for the state-explicit form (same rule as `routeMatches`). -/
def routeMatchesSt (m : Method) (p : String) (r : RouteSt) : Bool :=
  r.path == p && (r.method == m || (m == Method.HEAD && r.method == Method.GET))

/-- The application routes, state-explicit form. -/
def appSt : List RouteSt := [⟨Method.GET, "/", rootHandlerSt⟩]

/-- Dispatch with the module state threaded through the handler. -/
def dispatchSt (routes : List RouteSt) (req : Request) (s : AppState) :
    Response × AppState :=
  match routes.find? (routeMatchesSt req.method req.path) with
  | some r =>
      let p := r.handler req {} s
      (finalize req.method p.1, p.2)
  | none => (notFoundResponse req, s)

/-! ## The container build recipe -/

/-- One Dockerfile instruction, as used by this recipe. -/
inductive Instr
  | fromImage (image : String)
  | workdir (dir : String)
  | copy (srcs : List String) (dst : String)
  | runWithMounts (cacheTargets : List String) (command : String)
  | cmd (command : String)
  deriving DecidableEq, Repr

/-- The Dockerfile of the repository, line by line. -/
def dockerfile : List Instr :=
  [Instr.fromImage "node:21.6-slim",
   Instr.workdir "/app",
   Instr.copy ["package.json"] "/app/",
   Instr.copy ["package-lock.json"] "/app/",
   Instr.runWithMounts ["/root/.npm"] "npm cache ls && npm install",
   Instr.copy ["."] "/app",
   Instr.cmd "node index.js"]

/-- The build actions a Dockerfile performs, abstracted from the
instruction set: file copies, command executions (with or without a cache
mount), and the fixed run command.  `FROM` and `WORKDIR` select the build
environment and perform no build action. -/
inductive BuildStep
  | copyFiles (srcs : List String) (dst : String)
  | execute (hasCacheMount : Bool) (command : String)
  | setRunCommand (command : String)
  deriving DecidableEq, Repr

/-- The build action of one instruction, if any. -/
def buildStep : Instr → Option BuildStep
  | .fromImage _ => none
  | .workdir _ => none
  | .copy srcs dst => some (BuildStep.copyFiles srcs dst)
  | .runWithMounts ts c => some (BuildStep.execute (ts.length != 0) c)
  | .cmd c => some (BuildStep.setRunCommand c)

/-- Whether a statement installs explicit error handling (try/catch around
listen, `server.on('error')`, `process.on('uncaughtException')`, ...). -/
def registersErrorHandling : Stmt → Bool
  | Stmt.registerErrorHandler => true
  | _ => false

/-! ## Sanity examples -/

example : dispatch app
    { method := Method.GET, path := "/", headers := [], queryString := "", body := "" } =
    { status := 200
      headers := [("Content-Type", "text/html; charset=utf-8")]
      body := "Good Afternoon!" } := rfl

example : (dispatch app
    { method := Method.POST, path := "/x", headers := [], queryString := "", body := "" }).status
    = 404 := rfl

example : run [] [] BindOutcome.ok =
    [Event.listenCall 3000, Event.stdout startupMsg, Event.bound 3000] := rfl

example : run [] [] BindOutcome.addrInUse =
    [Event.listenCall 3000, Event.stdout startupMsg,
     Event.errorThrown "EADDRINUSE", Event.exited] := rfl

example : respIsPlainText (dispatch app
    { method := Method.GET, path := "/", headers := [], queryString := "", body := "" })
    = false := by decide

/-! ## Concrete requests used by witnesses and counterexamples -/

/-- A GET request to the root carrying headers, a query string and a body,
all of which the handler ignores. -/
def reqW1 : Request :=
  { method := Method.GET, path := "/"
    headers := [("Accept", "text/plain"), ("X-Custom", "yes")]
    queryString := "a=1&b=2", body := "ignored payload" }

/-- A request to a path no route of the program handles. -/
def reqW2 : Request :=
  { method := Method.GET, path := "/missing", headers := []
    queryString := "", body := "" }

/-- A bare GET request to the root. -/
def plainRootReq : Request :=
  { method := Method.GET, path := "/", headers := [], queryString := "", body := "" }

/-- A HEAD request to the root. -/
def headRootReq : Request :=
  { method := Method.HEAD, path := "/", headers := [("Accept", "*/*")]
    queryString := "q=1", body := "" }

/-! ## Claims -/

/-- Claim C1: every HTTP GET request to the path `/` is answered with
status 200 and body `Good Afternoon!`; the response equals one fixed
response literal, hence is identical for any two such requests regardless
of the headers, query string, or body supplied — the handler inspects
none of them. -/
theorem c1_get_root_fixed_response (req : Request)
    (hm : req.method = Method.GET) (hp : req.path = "/") :
    dispatch app req =
      { status := 200
        headers := [("Content-Type", "text/html; charset=utf-8")]
        body := "Good Afternoon!" } := by
  cases req with
  | mk m p hs q b =>
    simp only at hm hp
    subst hm; subst hp
    rfl

/-- Witness for claim C1: the fixed response at a concrete GET `/` request
that carries headers, a query string and a body. -/
theorem c1_witness :
    dispatch app reqW1 =
      { status := 200
        headers := [("Content-Type", "text/html; charset=utf-8")]
        body := "Good Afternoon!" } :=
  c1_get_root_fixed_response reqW1 rfl rfl

/-- Claim C2: exactly one route is registered, and for every request whose
path is not `/` no route of the program matches, so the framework default
not-found response (status 404) answers the request. -/
theorem c2_other_path_default_not_found (req : Request) (hp : req.path ≠ "/") :
    app.length = 1 ∧
    List.find? (routeMatches req.method req.path) app = none ∧
    dispatch app req = notFoundResponse req ∧
    (dispatch app req).status = 404 := by
  have happ : app = [⟨Method.GET, "/", rootHandler⟩] := rfl
  have hmatch : routeMatches req.method req.path ⟨Method.GET, "/", rootHandler⟩ = false := by
    have hne : (("/" : String) == req.path) = false :=
      beq_eq_false_iff_ne.mpr (fun h => hp h.symm)
    simp [routeMatches, hne]
  have hfind : List.find? (routeMatches req.method req.path) app = none := by
    rw [happ]
    simp [List.find?, hmatch]
  refine ⟨rfl, hfind, ?_, ?_⟩
  · simp [dispatch, hfind]
  · simp [dispatch, hfind, notFoundResponse]

/-- Witness for claim C2: the default 404 at a concrete request for the
unregistered path `/missing`. -/
theorem c2_witness :
    app.length = 1 ∧
    List.find? (routeMatches reqW2.method reqW2.path) app = none ∧
    dispatch app reqW2 = notFoundResponse reqW2 ∧
    (dispatch app reqW2).status = 404 :=
  c2_other_path_default_not_found reqW2 (by decide)

/-- Claim C3: every run of the program calls listen exactly once, on port
3000; when the bind succeeds exactly one listener is bound, on port 3000;
and the trace is the same for every process environment and argument
vector, so no environment variable or CLI flag can change the port. -/
theorem c3_single_listen_fixed_port (env : List (String × String))
    (argv : List String) (outcome : BindOutcome) :
    listenCalls (run env argv outcome) = [3000] ∧
    boundPorts (run env argv BindOutcome.ok) = [3000] ∧
    run env argv outcome = run [] [] outcome := by
  cases outcome <;> exact ⟨rfl, rfl, rfl⟩

/-- Counterexample to claim C4 as stated: in the run where the bind of
port 3000 fails (the port is already in use), the startup line is still
the one line written to stdout, no listener is ever bound, and the
bind-then-log ordering predicate is violated — the log is not gated on
the bind. -/
theorem c4_counterexample :
    stdoutLines (run [] [] BindOutcome.addrInUse) = [startupMsg] ∧
    boundPorts (run [] [] BindOutcome.addrInUse) = [] ∧
    ¬ logGatedOnBind (run [] [] BindOutcome.addrInUse) := by
  refine ⟨rfl, rfl, ?_⟩
  unfold logGatedOnBind
  decide

/-- Claim C4 amended: the process writes exactly one startup line, and it
does so immediately after initiating the listen call — before the bind
completes and regardless of whether the bind succeeds (log-then-bind, not
bind-then-log). -/
theorem c4_log_follows_listen_call_unconditionally
    (env : List (String × String)) (argv : List String) (outcome : BindOutcome) :
    stdoutLines (run env argv outcome) = [startupMsg] ∧
    ∃ rest, run env argv outcome =
      Event.listenCall 3000 :: Event.stdout startupMsg :: rest := by
  cases outcome
  · exact ⟨rfl, ⟨[Event.bound 3000], rfl⟩⟩
  · exact ⟨rfl, ⟨[Event.errorThrown "EADDRINUSE", Event.exited], rfl⟩⟩

/-- Counterexample to claim C5 as stated: the response to a concrete GET
`/` request carries Content-Type `text/html; charset=utf-8` — the Express
default for string bodies — not a plain-text content type. -/
theorem c5_counterexample :
    contentTypeOf (dispatch app plainRootReq) = some "text/html; charset=utf-8" ∧
    respIsPlainText (dispatch app plainRootReq) = false := by
  exact ⟨rfl, by decide⟩

/-- Claim C5 amended: the successful response to GET `/` carries the fixed
string body `Good Afternoon!` with no templating or content negotiation,
served with the content type Express applies to string bodies,
`text/html; charset=utf-8` (not text/plain). -/
theorem c5_fixed_body_html_content_type (req : Request)
    (hm : req.method = Method.GET) (hp : req.path = "/") :
    (dispatch app req).body = "Good Afternoon!" ∧
    contentTypeOf (dispatch app req) = some "text/html; charset=utf-8" := by
  cases req with
  | mk m p hs q b =>
    simp only at hm hp
    subst hm; subst hp
    exact ⟨rfl, rfl⟩

/-- Witness for the amended claim C5 at a concrete GET `/` request. -/
theorem c5_witness :
    (dispatch app plainRootReq).body = "Good Afternoon!" ∧
    contentTypeOf (dispatch app plainRootReq) = some "text/html; charset=utf-8" :=
  c5_fixed_body_html_content_type plainRootReq rfl rfl

/-- Claim C6: the script installs no explicit error handler anywhere; on a
bind failure the run ends with the runtime default (uncaught error, then
process exit), listen is called exactly once (nothing is retried), and
nothing is written to stdout beyond the single startup message. -/
theorem c6_no_explicit_error_handling (env : List (String × String))
    (argv : List String) :
    ((program env argv).all fun s => !(registersErrorHandling s)) = true ∧
    (syncRun (program env argv)).errorHandlers = 0 ∧
    listenCalls (run env argv BindOutcome.addrInUse) = [3000] ∧
    stdoutLines (run env argv BindOutcome.addrInUse) = [startupMsg] ∧
    (run env argv BindOutcome.addrInUse).getLast? = some Event.exited :=
  ⟨rfl, rfl, rfl, rfl, rfl⟩

/-- Claim C7: the program is stateless and deterministic — the module
state visible to the handler is empty by construction, dispatch returns
the state unchanged, and the response does not depend on the state, so
any two runs of the handler on equal requests produce equal responses. -/
theorem c7_stateless_deterministic (req : Request) (s t : AppState) :
    (dispatchSt appSt req s).2 = s ∧
    (dispatchSt appSt req s).1 = (dispatchSt appSt req t).1 := by
  unfold dispatchSt
  cases h : List.find? (routeMatchesSt req.method req.path) appSt with
  | none => simp
  | some r =>
    have hr : r ∈ appSt := List.mem_of_find?_eq_some h
    have hone : r = ⟨Method.GET, "/", rootHandlerSt⟩ := by
      simpa [appSt] using hr
    subst hone
    simp [rootHandlerSt]

/-- Claim C8: the build actions of the Dockerfile, in order, are exactly:
copy package.json, copy package-lock.json, run the install command with a
cache mount, copy the source tree, and set the run command
`node index.js`. -/
theorem c8_build_recipe_steps :
    dockerfile.filterMap buildStep =
      [BuildStep.copyFiles ["package.json"] "/app/",
       BuildStep.copyFiles ["package-lock.json"] "/app/",
       BuildStep.execute true "npm cache ls && npm install",
       BuildStep.copyFiles ["."] "/app",
       BuildStep.setRunCommand "node index.js"] := rfl

/-- Claim C9: even in the run where binding port 3000 fails, the startup
message is still the one line written to standard output, and it appears
in the trace before the process terminates — so the message does not
imply a successful bind. -/
theorem c9_startup_log_despite_bind_failure (env : List (String × String))
    (argv : List String) :
    stdoutLines (run env argv BindOutcome.addrInUse) = [startupMsg] ∧
    run env argv BindOutcome.addrInUse =
      [Event.listenCall 3000, Event.stdout startupMsg,
       Event.errorThrown "EADDRINUSE", Event.exited] :=
  ⟨rfl, rfl⟩

/-- Claim C10: every HTTP HEAD request to `/` is answered with status 200
(the GET route also serves HEAD in Express routing), with the body
omitted on the wire. -/
theorem c10_head_root_ok (req : Request)
    (hm : req.method = Method.HEAD) (hp : req.path = "/") :
    (dispatch app req).status = 200 ∧ (dispatch app req).body = "" := by
  cases req with
  | mk m p hs q b =>
    simp only at hm hp
    subst hm; subst hp
    exact ⟨rfl, rfl⟩

/-- Witness for claim C10 at a concrete HEAD `/` request. -/
theorem c10_witness :
    (dispatch app headRootReq).status = 200 ∧ (dispatch app headRootReq).body = "" :=
  c10_head_root_ok headRootReq rfl rfl

end NodeBuildTalk
